import Mathlib

/-!
Shallow embedding of the interaction and camera-transition controller of the
solar-system demos.  Two variants exist in the repository: `src/script.js`
(namespace `SJ`) and `src/unnamed/part_000` (namespace `P0`).  Coordinates and
times are modelled as rationals; the GSAP tween engine is modelled by explicit
tween records advanced by an `advance` function (its ticker), per its contract
that `onComplete` fires exactly once when a non-cancelled tween reaches its
duration.  A JavaScript `TypeError` escaping an event handler is modelled by a
sticky `faulted` flag set at the throw point, with all mutations performed
before the throw kept, as in the browser.
-/

namespace SpaceAnim

/-- A 3-component vector, standing for `THREE.Vector3`. -/
structure Vec3 where
  x : ℚ
  y : ℚ
  z : ℚ
  deriving DecidableEq

/-- GSAP ease curves used by the two variants. -/
inductive EaseKind where
  | p3InOut
  | p2InOut
  deriving DecidableEq

/-- GSAP `power3.inOut` (quartic in-out). -/
def easeP3InOut (t : ℚ) : ℚ := if t < 1/2 then 8 * t^4 else 1 - 8 * (1 - t)^4

/-- GSAP `power2.inOut` (cubic in-out). -/
def easeP2InOut (t : ℚ) : ℚ := if t < 1/2 then 4 * t^3 else 1 - 4 * (1 - t)^3

/-- GSAP default ease `power1.out`, used by the hover scale tweens. -/
def easeP1Out (t : ℚ) : ℚ := 1 - (1 - t)^2

def easeOf : EaseKind → ℚ → ℚ
  | EaseKind.p3InOut => easeP3InOut
  | EaseKind.p2InOut => easeP2InOut

def lerpQ (a b t : ℚ) : ℚ := a + (b - a) * t

def lerpV (a b : Vec3) (t : ℚ) : Vec3 :=
  ⟨lerpQ a.x b.x t, lerpQ a.y b.y t, lerpQ a.z b.z t⟩

/-- The effect attached to the `onComplete` callback of a camera transition:
either the completion handler of a fly-to toward a planet index, or the
completion handler of a reset to the home pose. -/
inductive CompleteAction where
  | focusDone : Nat → CompleteAction
  | resetDone : CompleteAction
  deriving DecidableEq

/-- One camera transition: the pair of same-duration GSAP tweens started
together on `camera.position` and `controls.target`, with the `onComplete`
callback that the source attaches to the `controls.target` tween. -/
structure Tween3 where
  posStart : Vec3
  posEnd : Vec3
  tgtStart : Vec3
  tgtEnd : Vec3
  duration : ℚ
  elapsed : ℚ
  ease : EaseKind
  action : CompleteAction
  deriving DecidableEq

def stepTween (dt : ℚ) (tw : Tween3) : Tween3 := { tw with elapsed := tw.elapsed + dt }

def tweenDone (tw : Tween3) : Bool := tw.duration ≤ tw.elapsed

/-- One entry of the raycaster result: object identity (the planet index kept
in the mesh `userData`) and the hit distance along the ray.  The raycaster
itself is external (three.js); per its contract the result list is ordered by
increasing distance. -/
structure Hit where
  id : Nat
  dist : ℚ
  deriving DecidableEq

/-- The code reads `intersects[0]` after checking `intersects.length > 0`:
first hit of the raycaster result, if any. -/
def intersectFirst (hits : List Hit) : Option Nat :=
  match hits with
  | [] => none
  | h :: _ => some h.id

/-- JavaScript truthiness of the `selectedPlanet` global (`null` or an index):
`!selectedPlanet` is `true` exactly when the value is `null` or `0`. -/
def jsFalsyNat : Option Nat → Bool
  | none => true
  | some n => n == 0

end SpaceAnim

namespace SpaceAnim.SJ

open SpaceAnim

/-- Per-planet configuration of `script.js` (`PLANET_DATA`), the fields the
controller reads. -/
structure PlanetData where
  name : String
  radius : ℚ
  distance : ℚ
  speed : ℚ
  isSun : Bool
  desc : String
  deriving DecidableEq

/-- `PLANET_DATA` of `script.js`. -/
def sjPlanetData : List PlanetData :=
  [ ⟨"Sun", 12, 0, 1/2000, true, "The Star. A perfect sphere of hot plasma."⟩,
    ⟨"Mercury", 1, 24, 1/250, false, "Smallest planet. Sun-scorched and cratered."⟩,
    ⟨"Venus", 9/5, 36, 1/500, false, "Hottest planet. Thick toxic atmosphere."⟩,
    ⟨"Earth", 2, 52, 3/1000, false, "Our Home. The only known life in the universe."⟩,
    ⟨"Mars", 7/5, 68, 3/1000, false, "The Red Planet. Dusty, cold, desert world."⟩,
    ⟨"Jupiter", 13/2, 92, 1/200, false, "Gas Giant. Massive storm \"Great Red Spot\"."⟩,
    ⟨"Saturn", 11/2, 124, 1/250, false, "The Jewel. Stunning icy ring system."⟩,
    ⟨"Uranus", 7/2, 156, 3/1000, false, "Ice Giant. Tilted on its side. Coldest."⟩,
    ⟨"Neptune", 17/5, 184, 1/500, false, "Windy World. Dark, cold, supersonic winds."⟩ ]

/-- One entry of `planetMeshes`: the static data, the orbital angle, the group
position, the mesh scale (set to the radius at creation) and the mesh spin. -/
structure Planet where
  data : PlanetData
  angle : ℚ
  groupPos : Vec3
  meshScale : ℚ
  rotY : ℚ
  deriving DecidableEq

/-- UI notifications emitted by `updateUI`: the info panel filled with the
target name and description and shown together with the back control, or the
cleared form hiding both. -/
inductive Notif where
  | focused : Nat → String → String → Notif
  | cleared : Notif
  deriving DecidableEq

/-- The module-level mutable state of `script.js` that the controller touches,
plus the UI surfaces it writes. -/
structure SJState where
  cameraPos : Vec3
  controlsTarget : Vec3
  planets : List Planet
  selectedPlanet : Option Nat
  isAnimating : Bool
  autoRotate : Bool
  activeTweens : List Tween3
  infoName : String
  infoDesc : String
  infoVisible : Bool
  backVisible : Bool
  tooltipText : String
  tooltipVisible : Bool
  cursorPointer : Bool
  notifs : List Notif
  faulted : Bool
  deriving DecidableEq

/-- Planet construction of `createPlanets`: the group is placed at a random
angle on the orbit circle; `trig` stands for the pair (cos, sin). -/
def mkPlanet (trig : ℚ → ℚ × ℚ) (d : PlanetData) (a : ℚ) : Planet :=
  ⟨d, a, ⟨(trig a).1 * d.distance, 0, (trig a).2 * d.distance⟩, d.radius, 0⟩

/-- Initial state of `script.js`: camera at (40, 60, 140), orbit-controls
target at the origin, no selection, `autoRotate` on. -/
def initSJ (trig : ℚ → ℚ × ℚ) (angles : List ℚ) : SJState :=
  { cameraPos := ⟨40, 60, 140⟩
    controlsTarget := ⟨0, 0, 0⟩
    planets := (sjPlanetData.zip angles).map (fun p => mkPlanet trig p.1 p.2)
    selectedPlanet := none
    isAnimating := false
    autoRotate := true
    activeTweens := []
    infoName := ""
    infoDesc := ""
    infoVisible := false
    backVisible := false
    tooltipText := ""
    tooltipVisible := false
    cursorPointer := false
    notifs := []
    faulted := false }

/-- `updateUI(index)`: fills and shows the info panel and the back button for
a planet index, or hides both for `null`.  Reading `PLANET_DATA[index]` with
an out-of-range index would throw on `data.name`. -/
def updateUI (s : SJState) (idx : Option Nat) : SJState :=
  match idx with
  | some i =>
    match s.planets[i]? with
    | some p =>
      { s with infoName := p.data.name, infoDesc := p.data.desc,
               infoVisible := true, backVisible := true,
               notifs := s.notifs ++ [Notif.focused i p.data.name p.data.desc] }
    | none => { s with faulted := true }
  | none =>
    { s with infoVisible := false, backVisible := false,
             notifs := s.notifs ++ [Notif.cleared] }

/-- `focusPlanet(index)` of `script.js`: early-returns while animating;
otherwise sets `isAnimating`, `selectedPlanet` and `autoRotate`, then reads
`planetMeshes[index]` (a missing entry throws on `.group` after those
mutations), computes the destination as target position plus the offset
`radius * 3.5 + 5` on x and z and half of it on y, and starts the 2-second
`power3.inOut` tween pair. -/
def focusPlanet (s : SJState) (index : Nat) : SJState :=
  if s.isAnimating then s
  else
    let s1 := { s with isAnimating := true, selectedPlanet := some index,
                       autoRotate := false }
    match s.planets[index]? with
    | none => { s1 with faulted := true }
    | some p =>
      let targetPos := p.groupPos
      let offset := p.data.radius * (7/2) + 5
      let endPos : Vec3 :=
        ⟨targetPos.x + offset, targetPos.y + offset * (1/2), targetPos.z + offset⟩
      { s1 with activeTweens := s1.activeTweens ++
          [⟨s.cameraPos, endPos, s.controlsTarget, targetPos, 2, 0,
            EaseKind.p3InOut, CompleteAction.focusDone index⟩] }

/-- `resetCamera()` of `script.js`: early-returns while animating; otherwise
clears the selection immediately, re-enables `autoRotate` and starts the
2-second tween pair back to the home pose. -/
def resetCamera (s : SJState) : SJState :=
  if s.isAnimating then s
  else
    { s with isAnimating := true, selectedPlanet := none, autoRotate := true,
             activeTweens := s.activeTweens ++
               [⟨s.cameraPos, ⟨40, 60, 140⟩, s.controlsTarget, ⟨0, 0, 0⟩, 2, 0,
                 EaseKind.p3InOut, CompleteAction.resetDone⟩] }

/-- The `onComplete` callbacks: both clear `isAnimating` and call `updateUI`
with the planet index respectively `null`. -/
def applyComplete (s : SJState) (a : CompleteAction) : SJState :=
  match a with
  | CompleteAction.focusDone i => updateUI { s with isAnimating := false } (some i)
  | CompleteAction.resetDone => updateUI { s with isAnimating := false } none

/-- Writing the interpolated (or, past the duration, final) tween values onto
the camera position and orbit-controls target. -/
def applyTweenValues (s : SJState) (tw : Tween3) : SJState :=
  if tw.duration ≤ tw.elapsed then
    { s with cameraPos := tw.posEnd, controlsTarget := tw.tgtEnd }
  else
    let r := easeOf tw.ease (tw.elapsed / tw.duration)
    { s with cameraPos := lerpV tw.posStart tw.posEnd r,
             controlsTarget := lerpV tw.tgtStart tw.tgtEnd r }

def fireComplete (s : SJState) (tw : Tween3) : SJState :=
  if tweenDone tw then applyComplete s tw.action else s

/-- One tick of the external tween engine by `dt`: every live tween advances,
finished tweens are dropped, current values are written to the camera, and the
`onComplete` of each tween that just finished runs. -/
def advanceSJ (s : SJState) (dt : ℚ) : SJState :=
  let stepped := s.activeTweens.map (stepTween dt)
  let s1 := stepped.foldl applyTweenValues
    { s with activeTweens := stepped.filter (fun tw => !(tweenDone tw)) }
  stepped.foldl fireComplete s1

/-- `onClick`: early-returns while animating, then raycasts against the planet
meshes and focuses the first hit, if any. -/
def onClickSJ (s : SJState) (hits : List Hit) : SJState :=
  if s.isAnimating then s
  else
    match intersectFirst hits with
    | some i => focusPlanet s i
    | none => s

/-- `onMouseMove` of `script.js`: raycast, then only tooltip and cursor are
updated; no scale or selection change. -/
def onMouseMoveSJ (s : SJState) (hits : List Hit) : SJState :=
  match hits with
  | h :: _ =>
    match s.planets[h.id]? with
    | some p =>
      { s with cursorPointer := true, tooltipText := p.data.name,
               tooltipVisible := true }
    | none => { s with cursorPointer := true, faulted := true }
  | [] => { s with cursorPointer := false, tooltipVisible := false }

/-- One frame of the `animate` loop, restricted to the planet updates: the
orbital advancement runs under the guard `autoRotate && !selectedPlanet`, and
every mesh spins on its axis unconditionally.  The loop body also reads
`clock.getDelta()` into an unused local (`clock` is not defined anywhere in
this variant, so a strict reading faults there); the dead read is omitted
here and the remainder of the body modelled. -/
def animateTick (trig : ℚ → ℚ × ℚ) (s : SJState) : SJState :=
  let planets :=
    if s.autoRotate && jsFalsyNat s.selectedPlanet then
      s.planets.map (fun p =>
        if p.data.isSun then p
        else
          let a := p.angle + p.data.speed * (1/2)
          { p with angle := a,
                   groupPos := ⟨(trig a).1 * p.data.distance, p.groupPos.y,
                                (trig a).2 * p.data.distance⟩ })
    else s.planets
  { s with planets := planets.map (fun p => { p with rotY := p.rotY + 1/500 }) }

/-- External stimuli of the `script.js` controller. -/
inductive SJEvent where
  | select : Nat → SJEvent
  | reset : SJEvent
  | gsapTick : ℚ → SJEvent
  | frame : SJEvent
  | click : List Hit → SJEvent
  | move : List Hit → SJEvent

def stepSJ (trig : ℚ → ℚ × ℚ) (s : SJState) (e : SJEvent) : SJState :=
  match e with
  | SJEvent.select i => focusPlanet s i
  | SJEvent.reset => resetCamera s
  | SJEvent.gsapTick dt => advanceSJ s dt
  | SJEvent.frame => animateTick trig s
  | SJEvent.click hits => onClickSJ s hits
  | SJEvent.move hits => onMouseMoveSJ s hits

/-- States reachable from the initial state under any event sequence. -/
inductive ReachableSJ (trig : ℚ → ℚ × ℚ) (angles : List ℚ) : SJState → Prop where
  | init : ReachableSJ trig angles (initSJ trig angles)
  | step : ∀ s e, ReachableSJ trig angles s → ReachableSJ trig angles (stepSJ trig s e)

end SpaceAnim.SJ

namespace SpaceAnim.P0

open SpaceAnim

/-- Per-planet configuration of `src/unnamed/part_000` (`PLANET_DATA`), the
fields the controller reads; `rotSpeed` embeds the `rotationSpeed` field. -/
structure P0Data where
  name : String
  radius : ℚ
  distance : ℚ
  rotSpeed : ℚ
  isSun : Bool
  desc : String
  deriving DecidableEq

/-- `PLANET_DATA` of the unnamed variant. -/
def p0PlanetData : List P0Data :=
  [ ⟨"Sun", 8, 0, 1/1000, true,
      "The star at the center of our solar system, a nearly perfect sphere of hot plasma."⟩,
    ⟨"Mercury", 4/5, 18, 1/250, false,
      "The smallest planet and closest to the Sun. Heavily cratered with no atmosphere."⟩,
    ⟨"Venus", 3/2, 26, 1/500, false,
      "The hottest planet with a thick toxic atmosphere. Often called Earth\x27s twin."⟩,
    ⟨"Earth", 8/5, 36, 3/1000, false,
      "Our home planet — the only known world to harbor life. Covered in 71% water."⟩,
    ⟨"Mars", 11/10, 46, 3/1000, false,
      "The Red Planet, home to the tallest volcano and deepest canyon in the solar system."⟩,
    ⟨"Jupiter", 9/2, 62, 1/200, false,
      "The largest planet, a gas giant with a Great Red Spot storm lasting hundreds of years."⟩,
    ⟨"Saturn", 19/5, 82, 1/250, false,
      "Known for its stunning ring system made of ice and rock. A gas giant with low density."⟩,
    ⟨"Uranus", 5/2, 100, 3/1000, false,
      "An ice giant that rotates on its side. Blue-green color from methane in its atmosphere."⟩,
    ⟨"Neptune", 12/5, 118, 1/500, false,
      "The windiest planet in the solar system. A deep blue ice giant far from the Sun."⟩ ]

/-- One entry of `planetMeshes` in the unnamed variant: static data, the group
position (fixed at `(distance, 0, 0)`; this variant has no orbital motion),
the mesh scale (1 at creation; hover tweens change it) and the mesh spin. -/
structure Planet where
  data : P0Data
  groupPos : Vec3
  meshScale : ℚ
  rotY : ℚ
  deriving DecidableEq

/-- A hover emphasis tween started by `gsap.to(mesh.scale, ...)`: 0.2 s from
the scale captured at start toward the target scale, default ease. -/
structure HoverTween where
  planet : Nat
  startScale : ℚ
  targetScale : ℚ
  duration : ℚ
  elapsed : ℚ
  deriving DecidableEq

def stepHover (dt : ℚ) (hw : HoverTween) : HoverTween :=
  { hw with elapsed := hw.elapsed + dt }

def hoverDone (hw : HoverTween) : Bool := hw.duration ≤ hw.elapsed

def hoverValue (hw : HoverTween) : ℚ :=
  if hw.duration ≤ hw.elapsed then hw.targetScale
  else lerpQ hw.startScale hw.targetScale (easeP1Out (hw.elapsed / hw.duration))

/-- The module-level mutable state of the unnamed variant. -/
structure P0State where
  cameraPos : Vec3
  controlsTarget : Vec3
  planets : List Planet
  selectedPlanet : Option Nat
  hoveredPlanet : Option Nat
  isAnimating : Bool
  activeTweens : List Tween3
  hoverTweens : List HoverTween
  activeCard : Int
  infoName : String
  infoDesc : String
  infoVisible : Bool
  backVisible : Bool
  tooltipText : String
  tooltipVisible : Bool
  cursorPointer : Bool
  faulted : Bool
  deriving DecidableEq

/-- Initial state of the unnamed variant: camera at (30, 40, 90), target at the
origin, every group at `(distance, 0, 0)`, mesh scale 1. -/
def initP0 : P0State :=
  { cameraPos := ⟨30, 40, 90⟩
    controlsTarget := ⟨0, 0, 0⟩
    planets := p0PlanetData.map (fun d => ⟨d, ⟨d.distance, 0, 0⟩, 1, 0⟩)
    selectedPlanet := none
    hoveredPlanet := none
    isAnimating := false
    activeTweens := []
    hoverTweens := []
    activeCard := -1
    infoName := ""
    infoDesc := ""
    infoVisible := false
    backVisible := false
    tooltipText := ""
    tooltipVisible := false
    cursorPointer := false
    faulted := false }

/-- `flyToPlanet(index)`: early-returns while animating; otherwise sets
`isAnimating` (the only immediate mutation), reads `planetMeshes[index]` (a
missing entry throws on `.group`), computes the destination as target plus
`dist * (0.5, 0.4, 0.7)` with `dist = radius * 4 + 4`, and starts the
1.5-second `power2.inOut` tween pair.  Selection, card highlight, info panel
and back button are all updated only in the `onComplete` callback. -/
def flyToPlanet (s : P0State) (index : Nat) : P0State :=
  if s.isAnimating then s
  else
    let s1 := { s with isAnimating := true }
    match s.planets[index]? with
    | none => { s1 with faulted := true }
    | some p =>
      let target := p.groupPos
      let dist := p.data.radius * 4 + 4
      let camPos : Vec3 :=
        ⟨target.x + dist * (1/2), target.y + dist * (2/5), target.z + dist * (7/10)⟩
      { s1 with activeTweens := s1.activeTweens ++
          [⟨s.cameraPos, camPos, s.controlsTarget, target, 3/2, 0,
            EaseKind.p2InOut, CompleteAction.focusDone index⟩] }

/-- `resetCamera()` of the unnamed variant: early-returns while animating;
otherwise starts the 1.5-second tween pair to the home pose.  Selection and UI
are cleared only in the `onComplete` callback. -/
def resetCameraP0 (s : P0State) : P0State :=
  if s.isAnimating then s
  else
    { s with isAnimating := true,
             activeTweens := s.activeTweens ++
               [⟨s.cameraPos, ⟨30, 40, 90⟩, s.controlsTarget, ⟨0, 0, 0⟩, 3/2, 0,
                 EaseKind.p2InOut, CompleteAction.resetDone⟩] }

/-- The `onComplete` callbacks of the unnamed variant. -/
def applyCompleteP0 (s : P0State) (a : CompleteAction) : P0State :=
  match a with
  | CompleteAction.focusDone i =>
    match s.planets[i]? with
    | some p =>
      { s with isAnimating := false, selectedPlanet := some i,
               activeCard := Int.ofNat i, infoVisible := true,
               infoName := p.data.name, infoDesc := p.data.desc,
               backVisible := true }
    | none => { s with isAnimating := false, faulted := true }
  | CompleteAction.resetDone =>
    { s with isAnimating := false, selectedPlanet := none, activeCard := -1,
             infoVisible := false, backVisible := false }

def applyTweenValuesP0 (s : P0State) (tw : Tween3) : P0State :=
  if tw.duration ≤ tw.elapsed then
    { s with cameraPos := tw.posEnd, controlsTarget := tw.tgtEnd }
  else
    let r := easeOf tw.ease (tw.elapsed / tw.duration)
    { s with cameraPos := lerpV tw.posStart tw.posEnd r,
             controlsTarget := lerpV tw.tgtStart tw.tgtEnd r }

def fireCompleteP0 (s : P0State) (tw : Tween3) : P0State :=
  if tweenDone tw then applyCompleteP0 s tw.action else s

/-- Setting the mesh scale of the planet at an index. -/
def setScaleAt : List Planet → Nat → ℚ → List Planet
  | [], _, _ => []
  | p :: ps, 0, v => { p with meshScale := v } :: ps
  | p :: ps, n + 1, v => p :: setScaleAt ps n v

def applyHoverValue (s : P0State) (hw : HoverTween) : P0State :=
  { s with planets := setScaleAt s.planets hw.planet (hoverValue hw) }

/-- One tick of the external tween engine for the unnamed variant: camera
transitions and hover scale tweens advance together and independently. -/
def advanceP0 (s : P0State) (dt : ℚ) : P0State :=
  let cam := s.activeTweens.map (stepTween dt)
  let hov := s.hoverTweens.map (stepHover dt)
  let s1 := { s with activeTweens := cam.filter (fun tw => !(tweenDone tw)),
                     hoverTweens := hov.filter (fun hw => !(hoverDone hw)) }
  let s2 := cam.foldl applyTweenValuesP0 s1
  let s3 := hov.foldl applyHoverValue s2
  cam.foldl fireCompleteP0 s3

/-- Starting a 0.2-second hover scale tween on a planet index toward a target
scale, from the scale the mesh currently has (`gsap.to` captures the current
value); a missing entry throws on `.mesh`. -/
def startHoverTween (s : P0State) (idx : Nat) (target : ℚ) : P0State :=
  match s.planets[idx]? with
  | some p =>
    { s with hoverTweens := s.hoverTweens ++ [⟨idx, p.meshScale, target, 1/5, 0⟩] }
  | none => { s with faulted := true }

/-- `onMouseMove` of the unnamed variant: raycast; on a hit, show the tooltip
and, when the hit index differs from the hovered one, tween the previously
hovered mesh (if any) back to scale 1 and the new one to 1.15, recording the
new hover; on no hit, hide the tooltip and restore the hovered mesh, if any.
There is no `isAnimating` guard anywhere in this handler. -/
def onMouseMoveP0 (s : P0State) (hits : List Hit) : P0State :=
  match hits with
  | h :: _ =>
    let idx := h.id
    match s.planets[idx]? with
    | none => { s with cursorPointer := true, faulted := true }
    | some p =>
      let s1 := { s with cursorPointer := true, tooltipText := p.data.name,
                         tooltipVisible := true }
      if s1.hoveredPlanet ≠ some idx then
        let s2 :=
          match s1.hoveredPlanet with
          | some prev => startHoverTween s1 prev 1
          | none => s1
        startHoverTween { s2 with hoveredPlanet := some idx } idx (23/20)
      else s1
  | [] =>
    let s1 := { s with cursorPointer := false, tooltipVisible := false }
    match s1.hoveredPlanet with
    | some prev => { startHoverTween s1 prev 1 with hoveredPlanet := none }
    | none => s1

/-- `onClick` of the unnamed variant: no guard of its own; `flyToPlanet` is
called on the first hit. -/
def onClickP0 (s : P0State) (hits : List Hit) : P0State :=
  match intersectFirst hits with
  | some i => flyToPlanet s i
  | none => s

/-- One frame of the `animate` loop of the unnamed variant: every mesh spins;
there is no orbital motion. -/
def animateTickP0 (s : P0State) : P0State :=
  { s with planets := s.planets.map (fun p => { p with rotY := p.rotY + p.data.rotSpeed }) }

end SpaceAnim.P0

namespace SpaceAnim

/-- Concrete stand-in for the (cos, sin) pair, exact for angle 0; used to
instantiate the random initial angles at 0. -/
def trigZ : ℚ → ℚ × ℚ := fun _ => (1, 0)

end SpaceAnim

namespace SpaceAnim.SJ

open SpaceAnim

/-- Concrete initial state of `script.js` with all the random angles at 0. -/
def sjC : SJState := initSJ trigZ (List.replicate 9 0)

theorem updateUI_activeTweens (s : SJState) (idx : Option Nat) :
    (updateUI s idx).activeTweens = s.activeTweens := by
  unfold updateUI
  cases idx with
  | none => rfl
  | some i => cases h : s.planets[i]? <;> simp [h]

theorem updateUI_isAnimating (s : SJState) (idx : Option Nat) :
    (updateUI s idx).isAnimating = s.isAnimating := by
  unfold updateUI
  cases idx with
  | none => rfl
  | some i => cases h : s.planets[i]? <;> simp [h]

theorem applyComplete_activeTweens (s : SJState) (a : CompleteAction) :
    (applyComplete s a).activeTweens = s.activeTweens := by
  cases a <;> simp [applyComplete, updateUI_activeTweens]

theorem applyComplete_isAnimating (s : SJState) (a : CompleteAction) :
    (applyComplete s a).isAnimating = false := by
  cases a <;> simp [applyComplete, updateUI_isAnimating]

theorem advanceSJ_nil (s : SJState) (dt : ℚ) (h : s.activeTweens = []) :
    advanceSJ s dt = s := by
  cases s
  simp_all [advanceSJ]

theorem advanceSJ_single_run (s : SJState) (tw : Tween3) (dt : ℚ)
    (h : s.activeTweens = [tw]) (hlt : tw.elapsed + dt < tw.duration) :
    advanceSJ s dt =
      { s with activeTweens := [{ tw with elapsed := tw.elapsed + dt }],
               cameraPos := lerpV tw.posStart tw.posEnd
                 (easeOf tw.ease ((tw.elapsed + dt) / tw.duration)),
               controlsTarget := lerpV tw.tgtStart tw.tgtEnd
                 (easeOf tw.ease ((tw.elapsed + dt) / tw.duration)) } := by
  simp [advanceSJ, h, stepTween, tweenDone, applyTweenValues, fireComplete,
        not_le.2 hlt]

theorem advanceSJ_single_done (s : SJState) (tw : Tween3) (dt : ℚ)
    (h : s.activeTweens = [tw]) (hge : tw.duration ≤ tw.elapsed + dt) :
    advanceSJ s dt =
      applyComplete { s with activeTweens := [],
                             cameraPos := tw.posEnd,
                             controlsTarget := tw.tgtEnd } tw.action := by
  simp [advanceSJ, h, stepTween, tweenDone, applyTweenValues, fireComplete, hge]

/-- The tween pair that `focusPlanet` starts for planet `p` at index `i`. -/
def focusTween (s : SJState) (i : Nat) (p : Planet) : Tween3 :=
  ⟨s.cameraPos,
   ⟨p.groupPos.x + (p.data.radius * (7/2) + 5),
    p.groupPos.y + (p.data.radius * (7/2) + 5) * (1/2),
    p.groupPos.z + (p.data.radius * (7/2) + 5)⟩,
   s.controlsTarget, p.groupPos, 2, 0, EaseKind.p3InOut, CompleteAction.focusDone i⟩

/-- The tween pair that `resetCamera` starts. -/
def resetTween (s : SJState) : Tween3 :=
  ⟨s.cameraPos, ⟨40, 60, 140⟩, s.controlsTarget, ⟨0, 0, 0⟩, 2, 0,
   EaseKind.p3InOut, CompleteAction.resetDone⟩

theorem focusPlanet_animating (s : SJState) (i : Nat) (h : s.isAnimating = true) :
    focusPlanet s i = s := by
  simp [focusPlanet, h]

theorem resetCamera_animating (s : SJState) (h : s.isAnimating = true) :
    resetCamera s = s := by
  simp [resetCamera, h]

theorem focusPlanet_idle (s : SJState) (i : Nat) (p : Planet)
    (h : s.isAnimating = false) (hp : s.planets[i]? = some p) :
    focusPlanet s i =
      { s with isAnimating := true, selectedPlanet := some i, autoRotate := false,
               activeTweens := s.activeTweens ++ [focusTween s i p] } := by
  simp [focusPlanet, h, hp, focusTween]

theorem focusPlanet_invalid (s : SJState) (i : Nat)
    (h : s.isAnimating = false) (hp : s.planets[i]? = none) :
    focusPlanet s i =
      { s with isAnimating := true, selectedPlanet := some i, autoRotate := false,
               faulted := true } := by
  simp [focusPlanet, h, hp]

theorem resetCamera_idle (s : SJState) (h : s.isAnimating = false) :
    resetCamera s =
      { s with isAnimating := true, selectedPlanet := none, autoRotate := true,
               activeTweens := s.activeTweens ++ [resetTween s] } := by
  simp [resetCamera, h, resetTween]

/-- The controller invariant behind the single-transition property: whenever
the guard flag is down no tween pair is live, and never more than one is. -/
def SJInv (s : SJState) : Prop :=
  (s.isAnimating = false → s.activeTweens = []) ∧ s.activeTweens.length ≤ 1

theorem focusPlanet_inv (s : SJState) (i : Nat) (h : SJInv s) :
    SJInv (focusPlanet s i) := by
  cases ha : s.isAnimating with
  | true => rw [focusPlanet_animating s i ha]; exact h
  | false =>
    have ht : s.activeTweens = [] := h.1 ha
    cases hp : s.planets[i]? with
    | none => rw [focusPlanet_invalid s i ha hp]; exact ⟨by simp, by simp [ht]⟩
    | some p =>
      rw [focusPlanet_idle s i p ha hp]
      exact ⟨by simp, by simp [ht]⟩

theorem resetCamera_inv (s : SJState) (h : SJInv s) : SJInv (resetCamera s) := by
  cases ha : s.isAnimating with
  | true => rw [resetCamera_animating s ha]; exact h
  | false =>
    have ht : s.activeTweens = [] := h.1 ha
    rw [resetCamera_idle s ha]
    exact ⟨by simp, by simp [ht]⟩

theorem advanceSJ_inv (s : SJState) (dt : ℚ) (h : SJInv s) :
    SJInv (advanceSJ s dt) := by
  rcases h with ⟨h1, h2⟩
  match ht : s.activeTweens with
  | [] => rw [advanceSJ_nil s dt ht]; exact ⟨h1, by simp [ht]⟩
  | [tw] =>
    have ha : s.isAnimating = true := by
      cases hb : s.isAnimating with
      | true => rfl
      | false => rw [h1 hb] at ht; cases ht
    by_cases hd : tw.duration ≤ tw.elapsed + dt
    · rw [advanceSJ_single_done s tw dt ht hd]
      refine ⟨fun _ => ?_, ?_⟩ <;> simp [applyComplete_activeTweens]
    · rw [advanceSJ_single_run s tw dt ht (not_le.1 hd)]
      exact ⟨by simp [ha], by simp⟩
  | tw1 :: tw2 :: rest => rw [ht] at h2; simp at h2

theorem animateTick_inv (trig : ℚ → ℚ × ℚ) (s : SJState) (h : SJInv s) :
    SJInv (animateTick trig s) := by
  have h1 : (animateTick trig s).activeTweens = s.activeTweens := by
    simp [animateTick]
  have h2 : (animateTick trig s).isAnimating = s.isAnimating := by
    simp [animateTick]
  exact ⟨fun hf => by rw [h1]; exact h.1 (by rw [← h2]; exact hf), by rw [h1]; exact h.2⟩

theorem onMouseMoveSJ_inv (s : SJState) (hits : List Hit) (h : SJInv s) :
    SJInv (onMouseMoveSJ s hits) := by
  have key : (onMouseMoveSJ s hits).activeTweens = s.activeTweens ∧
      (onMouseMoveSJ s hits).isAnimating = s.isAnimating := by
    unfold onMouseMoveSJ
    cases hits with
    | nil => exact ⟨rfl, rfl⟩
    | cons hh t => cases hp : s.planets[hh.id]? <;> simp [hp]
  exact ⟨fun hf => by rw [key.1]; exact h.1 (by rw [← key.2]; exact hf),
         by rw [key.1]; exact h.2⟩

theorem onClickSJ_inv (s : SJState) (hits : List Hit) (h : SJInv s) :
    SJInv (onClickSJ s hits) := by
  unfold onClickSJ
  cases ha : s.isAnimating with
  | true => simpa using h
  | false =>
    cases hits with
    | nil => simpa [intersectFirst] using h
    | cons hh t => simpa [intersectFirst] using focusPlanet_inv s hh.id h

theorem stepSJ_inv (trig : ℚ → ℚ × ℚ) (s : SJState) (e : SJEvent) (h : SJInv s) :
    SJInv (stepSJ trig s e) := by
  cases e with
  | select i => exact focusPlanet_inv s i h
  | reset => exact resetCamera_inv s h
  | gsapTick dt => exact advanceSJ_inv s dt h
  | frame => exact animateTick_inv trig s h
  | click hits => exact onClickSJ_inv s hits h
  | move hits => exact onMouseMoveSJ_inv s hits h

theorem reachableSJ_inv (trig : ℚ → ℚ × ℚ) (angles : List ℚ) (s : SJState)
    (h : ReachableSJ trig angles s) : SJInv s := by
  induction h with
  | init => exact ⟨fun _ => rfl, by simp [initSJ]⟩
  | step s e _ ih => exact stepSJ_inv trig s e ih

/-- Running the tween engine through a list of consecutive tick durations
(the simulated clock). -/
def applyDts (s : SJState) (dts : List ℚ) : SJState := dts.foldl advanceSJ s

/-- Mid-flight shape of the state while the fly-to toward planet `i` started
from `s0` is running with `t` seconds elapsed. -/
def Qmid (s0 : SJState) (i : Nat) (p : Planet) (t : ℚ) (s : SJState) : Prop :=
  s.isAnimating = true ∧ s.selectedPlanet = some i ∧ s.autoRotate = false ∧
  s.planets = s0.planets ∧ s.notifs = s0.notifs ∧ s.faulted = s0.faulted ∧
  s.activeTweens = [{ focusTween s0 i p with elapsed := t }]

/-- Shape of the state after the fly-to toward planet `i` started from `s0`
has completed: the Focused state with its UI notification. -/
def Rfoc (s0 : SJState) (i : Nat) (p : Planet) (s : SJState) : Prop :=
  s.isAnimating = false ∧ s.selectedPlanet = some i ∧
  s.infoName = p.data.name ∧ s.infoDesc = p.data.desc ∧
  s.infoVisible = true ∧ s.backVisible = true ∧
  s.notifs = s0.notifs ++ [Notif.focused i p.data.name p.data.desc] ∧
  s.activeTweens = [] ∧
  s.cameraPos = (focusTween s0 i p).posEnd ∧ s.controlsTarget = p.groupPos

theorem qmid_start (s0 : SJState) (i : Nat) (p : Planet)
    (h0 : s0.isAnimating = false) (hp : s0.planets[i]? = some p)
    (ht : s0.activeTweens = []) : Qmid s0 i p 0 (focusPlanet s0 i) := by
  rw [focusPlanet_idle s0 i p h0 hp]
  refine ⟨rfl, rfl, rfl, rfl, rfl, rfl, ?_⟩
  simp [ht, focusTween]

theorem qmid_advance_mid (s0 : SJState) (i : Nat) (p : Planet) (t dt : ℚ)
    (s : SJState) (hq : Qmid s0 i p t s) (hlt : t + dt < 2) :
    Qmid s0 i p (t + dt) (advanceSJ s dt) := by
  obtain ⟨h1, h2, h3, h4, h5, h6, h7⟩ := hq
  rw [advanceSJ_single_run s _ dt h7 (by simpa [focusTween] using hlt)]
  exact ⟨h1, h2, h3, h4, h5, h6, rfl⟩

theorem qmid_advance_done (s0 : SJState) (i : Nat) (p : Planet) (t dt : ℚ)
    (s : SJState) (hq : Qmid s0 i p t s) (hp : s0.planets[i]? = some p)
    (hge : 2 ≤ t + dt) : Rfoc s0 i p (advanceSJ s dt) := by
  obtain ⟨h1, h2, h3, h4, h5, h6, h7⟩ := hq
  rw [advanceSJ_single_done s _ dt h7 (by simpa [focusTween] using hge)]
  have hp' : s.planets[i]? = some p := by rw [h4]; exact hp
  unfold Rfoc
  simp [applyComplete, updateUI, hp', h2, h5, focusTween]

theorem applyDts_no_tweens (s : SJState) (dts : List ℚ)
    (h : s.activeTweens = []) : applyDts s dts = s := by
  induction dts with
  | nil => rfl
  | cons d ds ih =>
    show applyDts (advanceSJ s d) ds = s
    rw [advanceSJ_nil s d h]
    exact ih

theorem qmid_run (s0 : SJState) (i : Nat) (p : Planet)
    (hp : s0.planets[i]? = some p) :
    ∀ (dts : List ℚ) (t : ℚ) (s : SJState), (∀ d ∈ dts, 0 ≤ d) → t < 2 →
      Qmid s0 i p t s →
      (t + dts.sum < 2 → Qmid s0 i p (t + dts.sum) (applyDts s dts)) ∧
      (2 ≤ t + dts.sum → Rfoc s0 i p (applyDts s dts)) := by
  intro dts
  induction dts with
  | nil =>
    intro t s _ ht hq
    refine ⟨fun _ => by simpa using hq, fun h2 => ?_⟩
    simp at h2
    linarith
  | cons d ds ih =>
    intro t s hnn ht hq
    have hd : 0 ≤ d := hnn d (by simp)
    have hds : ∀ x ∈ ds, 0 ≤ x := fun x hx => hnn x (by simp [hx])
    have happ : applyDts s (d :: ds) = applyDts (advanceSJ s d) ds := rfl
    have hsum : (d :: ds).sum = d + ds.sum := by simp
    by_cases hlt : t + d < 2
    · have hq' := qmid_advance_mid s0 i p t d s hq hlt
      have hih := ih (t + d) (advanceSJ s d) hds hlt hq'
      constructor
      · intro hs
        rw [happ, hsum, ← add_assoc]
        exact hih.1 (by rw [hsum] at hs; linarith)
      · intro hs
        rw [happ]
        exact hih.2 (by rw [hsum] at hs; linarith)
    · have h2 : 2 ≤ t + d := not_lt.1 hlt
      have hr := qmid_advance_done s0 i p t d s hq hp h2
      have hnon : 0 ≤ ds.sum := List.sum_nonneg hds
      constructor
      · intro hs
        exfalso
        rw [hsum] at hs
        linarith
      · intro _
        rw [happ, applyDts_no_tweens _ ds hr.2.2.2.2.2.2.2.1]
        exact hr

end SpaceAnim.SJ

namespace SpaceAnim.P0

open SpaceAnim

/-- The tween pair that `flyToPlanet` starts for planet `p` at index `i`. -/
def flyTween (s : P0State) (i : Nat) (p : Planet) : Tween3 :=
  ⟨s.cameraPos,
   ⟨p.groupPos.x + (p.data.radius * 4 + 4) * (1/2),
    p.groupPos.y + (p.data.radius * 4 + 4) * (2/5),
    p.groupPos.z + (p.data.radius * 4 + 4) * (7/10)⟩,
   s.controlsTarget, p.groupPos, 3/2, 0, EaseKind.p2InOut, CompleteAction.focusDone i⟩

/-- The tween pair that the unnamed variant's `resetCamera` starts. -/
def resetTweenP0 (s : P0State) : Tween3 :=
  ⟨s.cameraPos, ⟨30, 40, 90⟩, s.controlsTarget, ⟨0, 0, 0⟩, 3/2, 0,
   EaseKind.p2InOut, CompleteAction.resetDone⟩

theorem flyToPlanet_idle (s : P0State) (i : Nat) (p : Planet)
    (h : s.isAnimating = false) (hp : s.planets[i]? = some p) :
    flyToPlanet s i =
      { s with isAnimating := true,
               activeTweens := s.activeTweens ++ [flyTween s i p] } := by
  simp [flyToPlanet, h, hp, flyTween]

theorem resetCameraP0_idle (s : P0State) (h : s.isAnimating = false) :
    resetCameraP0 s =
      { s with isAnimating := true,
               activeTweens := s.activeTweens ++ [resetTweenP0 s] } := by
  simp [resetCameraP0, h, resetTweenP0]

theorem advanceP0_single_run (s : P0State) (tw : Tween3) (dt : ℚ)
    (h : s.activeTweens = [tw]) (hh : s.hoverTweens = [])
    (hlt : tw.elapsed + dt < tw.duration) :
    advanceP0 s dt =
      { s with activeTweens := [{ tw with elapsed := tw.elapsed + dt }],
               hoverTweens := [],
               cameraPos := lerpV tw.posStart tw.posEnd
                 (easeOf tw.ease ((tw.elapsed + dt) / tw.duration)),
               controlsTarget := lerpV tw.tgtStart tw.tgtEnd
                 (easeOf tw.ease ((tw.elapsed + dt) / tw.duration)) } := by
  simp [advanceP0, h, hh, stepTween, tweenDone, applyTweenValuesP0,
        fireCompleteP0, not_le.2 hlt]

theorem advanceP0_single_done (s : P0State) (tw : Tween3) (dt : ℚ)
    (h : s.activeTweens = [tw]) (hh : s.hoverTweens = [])
    (hge : tw.duration ≤ tw.elapsed + dt) :
    advanceP0 s dt =
      applyCompleteP0 { s with activeTweens := [], hoverTweens := [],
                               cameraPos := tw.posEnd,
                               controlsTarget := tw.tgtEnd } tw.action := by
  simp [advanceP0, h, hh, stepTween, tweenDone, applyTweenValuesP0,
        fireCompleteP0, hge]

theorem onMouseMoveP0_new_hover_from_none (s : P0State) (h : Hit) (hs : List Hit)
    (p : Planet) (hp : s.planets[h.id]? = some p) (hh : s.hoveredPlanet = none) :
    onMouseMoveP0 s (h :: hs) =
      { s with cursorPointer := true, tooltipText := p.data.name,
               tooltipVisible := true, hoveredPlanet := some h.id,
               hoverTweens := s.hoverTweens ++ [⟨h.id, p.meshScale, 23/20, 1/5, 0⟩] } := by
  simp [onMouseMoveP0, startHoverTween, hp, hh]

theorem onMouseMoveP0_new_hover_from_prev (s : P0State) (h : Hit) (hs : List Hit)
    (p q : Planet) (j : Nat) (hp : s.planets[h.id]? = some p)
    (hh : s.hoveredPlanet = some j) (hne : j ≠ h.id) (hq : s.planets[j]? = some q) :
    onMouseMoveP0 s (h :: hs) =
      { s with cursorPointer := true, tooltipText := p.data.name,
               tooltipVisible := true, hoveredPlanet := some h.id,
               hoverTweens := s.hoverTweens ++
                 [⟨j, q.meshScale, 1, 1/5, 0⟩, ⟨h.id, p.meshScale, 23/20, 1/5, 0⟩] } := by
  simp [onMouseMoveP0, startHoverTween, hp, hh, hq, hne]

theorem onMouseMoveP0_preserves_transitions (s : P0State) (hits : List Hit) :
    (onMouseMoveP0 s hits).activeTweens = s.activeTweens ∧
    (onMouseMoveP0 s hits).isAnimating = s.isAnimating ∧
    (onMouseMoveP0 s hits).cameraPos = s.cameraPos ∧
    (onMouseMoveP0 s hits).selectedPlanet = s.selectedPlanet := by
  cases hits with
  | nil =>
    cases hh : s.hoveredPlanet with
    | none => simp [onMouseMoveP0, hh]
    | some prev =>
      cases hq : s.planets[prev]? <;>
        simp [onMouseMoveP0, startHoverTween, hh, hq]
  | cons h t =>
    cases hp : s.planets[h.id]? with
    | none => simp [onMouseMoveP0, hp]
    | some p =>
      by_cases hne : s.hoveredPlanet = some h.id
      · simp [onMouseMoveP0, hp, hne]
      · cases hh : s.hoveredPlanet with
        | none => simp [onMouseMoveP0, startHoverTween, hp, hh]
        | some prev =>
          rw [hh] at hne
          cases hq : s.planets[prev]? <;>
            simp [onMouseMoveP0, startHoverTween, hp, hh, hq, hne]

theorem onMouseMoveP0_isAnimating_comm (s : P0State) (hits : List Hit) (b : Bool) :
    onMouseMoveP0 { s with isAnimating := b } hits
      = { onMouseMoveP0 s hits with isAnimating := b } := by
  cases hits with
  | nil =>
    cases hh : s.hoveredPlanet with
    | none => simp [onMouseMoveP0, hh]
    | some prev =>
      cases hq : s.planets[prev]? <;>
        simp [onMouseMoveP0, startHoverTween, hh, hq]
  | cons h t =>
    cases hp : s.planets[h.id]? with
    | none => simp [onMouseMoveP0, hp]
    | some p =>
      by_cases hne : s.hoveredPlanet = some h.id
      · simp [onMouseMoveP0, hp, hne]
      · cases hh : s.hoveredPlanet with
        | none => simp [onMouseMoveP0, startHoverTween, hp, hh]
        | some prev =>
          rw [hh] at hne
          cases hq : s.planets[prev]? <;>
            simp [onMouseMoveP0, startHoverTween, hp, hh, hq, hne]

theorem flyToPlanet_hover_comm (s : P0State) (i : Nat) (o : Option Nat)
    (l : List HoverTween) :
    flyToPlanet { s with hoveredPlanet := o, hoverTweens := l } i
      = { flyToPlanet s i with hoveredPlanet := o, hoverTweens := l } := by
  cases ha : s.isAnimating with
  | true => simp [flyToPlanet, ha]
  | false =>
    cases hp : s.planets[i]? <;> simp [flyToPlanet, ha, hp]

end SpaceAnim.P0

namespace SpaceAnim.Claims

open SpaceAnim

/-- C1 counterexample: in the concrete state `Transitioning(1)` (reached from
the initial state by selecting planet 1), a second select with the different
id 2 leaves the state completely unchanged — no tween toward 2 is started —
and planet 1's tween still runs to completion, firing its `onComplete` (the
focused-on-1 notification), contradicting the claim that the second request
cancels the first tween and immediately starts a fresh one toward 2. -/
theorem c1_second_select_ignored_cex :
    (SJ.focusPlanet SJ.sjC 1).isAnimating = true ∧
    SJ.focusPlanet (SJ.focusPlanet SJ.sjC 1) 2 = SJ.focusPlanet SJ.sjC 1 ∧
    (SJ.advanceSJ (SJ.focusPlanet (SJ.focusPlanet SJ.sjC 1) 2) 2).selectedPlanet
      = some 1 ∧
    (SJ.advanceSJ (SJ.focusPlanet (SJ.focusPlanet SJ.sjC 1) 2) 2).notifs
      = [SJ.Notif.focused 1 "Mercury" "Smallest planet. Sun-scorched and cratered."] := by
  have hstate : SJ.focusPlanet (SJ.focusPlanet SJ.sjC 1) 2 = SJ.focusPlanet SJ.sjC 1 :=
    SJ.focusPlanet_animating _ 2 rfl
  refine ⟨rfl, hstate, ?_, ?_⟩ <;>
    rw [hstate,
        SJ.advanceSJ_single_done _
          (SJ.focusTween SJ.sjC 1
            (SJ.mkPlanet trigZ
              ⟨"Mercury", 1, 24, 1/250, false,
               "Smallest planet. Sun-scorched and cratered."⟩ 0)) 2 rfl
          (by norm_num [SJ.focusTween])] <;>
    rfl

/-- C1 (amended): while a transition is in flight (`isAnimating` is set), a
second select request with any id — different or not — is ignored by the
early-return guard in both variants: the state is unchanged, so the in-flight
tween is neither cancelled nor superseded and no fresh tween is started. -/
theorem c1_inflight_select_ignored :
    ∀ (s : SJ.SJState) (i : Nat) (t : P0.P0State) (j : Nat),
      s.isAnimating = true → t.isAnimating = true →
      SJ.focusPlanet s i = s ∧ P0.flyToPlanet t j = t := by
  intro s i t j hs ht
  refine ⟨SJ.focusPlanet_animating s i hs, ?_⟩
  simp [P0.flyToPlanet, ht]

/-- C1 witness: the amended theorem applied in both variants to the concrete
states reached by a first select of planet 1. -/
theorem c1_inflight_select_ignored_wit :
    SJ.focusPlanet (SJ.focusPlanet SJ.sjC 1) 2 = SJ.focusPlanet SJ.sjC 1 ∧
    P0.flyToPlanet (P0.flyToPlanet P0.initP0 1) 2 = P0.flyToPlanet P0.initP0 1 :=
  (c1_inflight_select_ignored (SJ.focusPlanet SJ.sjC 1) 2
    (P0.flyToPlanet P0.initP0 1) 2 rfl rfl)

/-- C2: in every reachable state of the `script.js` controller, at most one
camera transition (position/look-at tween pair toward a single destination)
is live; two transitions never run concurrently. -/
theorem c2_at_most_one_transition :
    ∀ (trig : ℚ → ℚ × ℚ) (angles : List ℚ) (s : SJ.SJState),
      SJ.ReachableSJ trig angles s → s.activeTweens.length ≤ 1 :=
  fun trig angles s h => (SJ.reachableSJ_inv trig angles s h).2

/-- C2 witness: the reachable state obtained by selecting planet 1 and then
ticking the tween engine half a second has at most one live transition. -/
theorem c2_at_most_one_transition_wit :
    SJ.ReachableSJ trigZ (List.replicate 9 0)
        (SJ.advanceSJ (SJ.focusPlanet SJ.sjC 1) (1/2)) ∧
      (SJ.advanceSJ (SJ.focusPlanet SJ.sjC 1) (1/2)).activeTweens.length ≤ 1 := by
  have hr : SJ.ReachableSJ trigZ (List.replicate 9 0)
      (SJ.advanceSJ (SJ.focusPlanet SJ.sjC 1) (1/2)) :=
    SJ.ReachableSJ.step _ (SJ.SJEvent.gsapTick (1/2))
      (SJ.ReachableSJ.step _ (SJ.SJEvent.select 1) SJ.ReachableSJ.init)
  exact ⟨hr, c2_at_most_one_transition trigZ (List.replicate 9 0) _ hr⟩

/-- C3 counterexample: issuing reset in the concrete Idle initial state (no
selection, not animating) is not a no-op: the animating flag goes up, a fresh
home-pose tween is started, and on its completion the cleared-selection
notification is emitted. -/
theorem c3_reset_while_idle_not_noop_cex :
    SJ.sjC.isAnimating = false ∧ SJ.sjC.selectedPlanet = none ∧
    (SJ.resetCamera SJ.sjC).isAnimating = true ∧
    (SJ.resetCamera SJ.sjC).activeTweens = [SJ.resetTween SJ.sjC] ∧
    (SJ.advanceSJ (SJ.resetCamera SJ.sjC) 2).notifs = [SJ.Notif.cleared] := by
  refine ⟨rfl, rfl, rfl, rfl, ?_⟩
  rw [SJ.advanceSJ_single_done _ (SJ.resetTween SJ.sjC) 2 rfl
        (by norm_num [SJ.resetTween])]
  rfl

/-- C3 (amended): reset is a no-op only while a transition is in flight (the
`isAnimating` guard, in both variants).  Issued while Idle it is not a no-op:
it raises the animating flag and starts a fresh tween pair toward the home
pose (and, in `script.js`, re-runs the cleared-selection UI update on
completion). -/
theorem c3_reset_idle_starts_home_tween :
    (∀ s : SJ.SJState, s.isAnimating = false →
      SJ.resetCamera s =
        { s with isAnimating := true, selectedPlanet := none, autoRotate := true,
                 activeTweens := s.activeTweens ++ [SJ.resetTween s] }) ∧
    (∀ t : P0.P0State, t.isAnimating = false →
      P0.resetCameraP0 t =
        { t with isAnimating := true,
                 activeTweens := t.activeTweens ++
                   [⟨t.cameraPos, ⟨30, 40, 90⟩, t.controlsTarget, ⟨0, 0, 0⟩, 3/2, 0,
                     EaseKind.p2InOut, CompleteAction.resetDone⟩] }) ∧
    (∀ s : SJ.SJState, s.isAnimating = true → SJ.resetCamera s = s) ∧
    (∀ t : P0.P0State, t.isAnimating = true → P0.resetCameraP0 t = t) := by
  refine ⟨fun s h => SJ.resetCamera_idle s h, fun t h => ?_,
          fun s h => SJ.resetCamera_animating s h, fun t h => ?_⟩ <;>
    simp [P0.resetCameraP0, h]

/-- C3 witness: the amended theorem applied to the concrete Idle initial
states of both variants and to concrete in-flight states. -/
theorem c3_reset_idle_starts_home_tween_wit :
    SJ.resetCamera SJ.sjC =
      { SJ.sjC with isAnimating := true, selectedPlanet := none, autoRotate := true,
                    activeTweens := SJ.sjC.activeTweens ++ [SJ.resetTween SJ.sjC] } ∧
    SJ.resetCamera (SJ.focusPlanet SJ.sjC 1) = SJ.focusPlanet SJ.sjC 1 ∧
    P0.resetCameraP0 (P0.flyToPlanet P0.initP0 1) = P0.flyToPlanet P0.initP0 1 :=
  ⟨c3_reset_idle_starts_home_tween.1 SJ.sjC rfl,
   c3_reset_idle_starts_home_tween.2.2.1 (SJ.focusPlanet SJ.sjC 1) rfl,
   c3_reset_idle_starts_home_tween.2.2.2 (P0.flyToPlanet P0.initP0 1) rfl⟩

/-- C4: for a focus target at world position (50, 0, 0) whose computed offset
magnitude `radius * 3.5 + 5` is 10, `focusPlanet` starts a tween pair with
destination camera position (60, 5, 10) — the offset policy +offset on x,
+0.5·offset on y, +offset on z — and destination look-at (50, 0, 0), over the
configured duration of 2 seconds; once 2 seconds elapse the controller is
Focused on that target with the camera at the destination. -/
theorem c4_focus_destination_offset_policy :
    ∀ (s : SJ.SJState) (p : SJ.Planet),
      s.isAnimating = false → s.activeTweens = [] →
      s.planets[0]? = some p → p.groupPos = ⟨50, 0, 0⟩ →
      p.data.radius * (7/2) + 5 = 10 →
      (SJ.focusPlanet s 0).activeTweens =
        [⟨s.cameraPos, ⟨60, 5, 10⟩, s.controlsTarget, ⟨50, 0, 0⟩, 2, 0,
          EaseKind.p3InOut, CompleteAction.focusDone 0⟩] ∧
      (SJ.advanceSJ (SJ.focusPlanet s 0) 2).isAnimating = false ∧
      (SJ.advanceSJ (SJ.focusPlanet s 0) 2).selectedPlanet = some 0 ∧
      (SJ.advanceSJ (SJ.focusPlanet s 0) 2).cameraPos = ⟨60, 5, 10⟩ ∧
      (SJ.advanceSJ (SJ.focusPlanet s 0) 2).controlsTarget = ⟨50, 0, 0⟩ := by
  intro s p h0 ht hp hpos hoff
  have hpe : SJ.focusTween s 0 p =
      ⟨s.cameraPos, ⟨60, 5, 10⟩, s.controlsTarget, ⟨50, 0, 0⟩, 2, 0,
       EaseKind.p3InOut, CompleteAction.focusDone 0⟩ := by
    norm_num [SJ.focusTween, hpos, hoff]
  rw [SJ.focusPlanet_idle s 0 p h0 hp]
  refine ⟨by simp [ht, hpe], ?_⟩
  rw [SJ.advanceSJ_single_done _ (SJ.focusTween s 0 p) 2 (by simp [ht])
        (by norm_num [SJ.focusTween])]
  norm_num [SJ.applyComplete, SJ.updateUI, hp, SJ.focusTween, hpos, hoff]

/-- C4 witness: a concrete state whose target 0 sits at (50, 0, 0) with radius
10/7 (so the computed offset is exactly 10). -/
theorem c4_focus_destination_offset_policy_wit :
    (SJ.focusPlanet
        { SJ.sjC with planets :=
            [⟨⟨"T", 10/7, 0, 0, false, "test body"⟩, 0, ⟨50, 0, 0⟩, 10/7, 0⟩] }
        0).activeTweens =
      [⟨SJ.sjC.cameraPos, ⟨60, 5, 10⟩, SJ.sjC.controlsTarget, ⟨50, 0, 0⟩, 2, 0,
        EaseKind.p3InOut, CompleteAction.focusDone 0⟩] ∧
    (SJ.advanceSJ
        (SJ.focusPlanet
          { SJ.sjC with planets :=
              [⟨⟨"T", 10/7, 0, 0, false, "test body"⟩, 0, ⟨50, 0, 0⟩, 10/7, 0⟩] }
          0) 2).cameraPos = ⟨60, 5, 10⟩ := by
  have h := c4_focus_destination_offset_policy
    { SJ.sjC with planets :=
        [⟨⟨"T", 10/7, 0, 0, false, "test body"⟩, 0, ⟨50, 0, 0⟩, 10/7, 0⟩] }
    ⟨⟨"T", 10/7, 0, 0, false, "test body"⟩, 0, ⟨50, 0, 0⟩, 10/7, 0⟩
    rfl rfl rfl rfl (by norm_num)
  exact ⟨h.1, h.2.2.2.1⟩

/-- C5 counterexample: a select carrying the unknown id 99 in the concrete
initial state is not rejected silently: it mutates the selection state, the
animating flag and `autoRotate`, and then hits a runtime fault (the TypeError
on dereferencing the missing entry), contradicting "no state mutation and no
runtime fault". -/
theorem c5_invalid_select_mutates_then_faults_cex :
    SJ.focusPlanet SJ.sjC 99 =
      { SJ.sjC with isAnimating := true, selectedPlanet := some 99,
                    autoRotate := false, faulted := true } := by
  rfl

/-- C5 (amended): a select with an id that has no focus target is not a silent
no-op: in `script.js` it sets the animating flag, the selection and
`autoRotate`, in the unnamed variant it sets the animating flag, and in both
it then throws a TypeError dereferencing the missing entry; the camera, the
look-at target and the tween list are left unchanged (so no transition
starts, and the controller is left stuck with `isAnimating` up). -/
theorem c5_invalid_select_behavior :
    (∀ (s : SJ.SJState) (i : Nat), s.isAnimating = false → s.planets[i]? = none →
      SJ.focusPlanet s i =
        { s with isAnimating := true, selectedPlanet := some i,
                 autoRotate := false, faulted := true }) ∧
    (∀ (t : P0.P0State) (j : Nat), t.isAnimating = false → t.planets[j]? = none →
      P0.flyToPlanet t j = { t with isAnimating := true, faulted := true }) := by
  constructor
  · intro s i h hp
    exact SJ.focusPlanet_invalid s i h hp
  · intro t j h hp
    simp [P0.flyToPlanet, h, hp]

/-- C5 witness: the amended theorem applied to the unknown id 9 in the
concrete initial states of both variants. -/
theorem c5_invalid_select_behavior_wit :
    SJ.focusPlanet SJ.sjC 9 =
      { SJ.sjC with isAnimating := true, selectedPlanet := some 9,
                    autoRotate := false, faulted := true } ∧
    P0.flyToPlanet P0.initP0 9 =
      { P0.initP0 with isAnimating := true, faulted := true } :=
  ⟨c5_invalid_select_behavior.1 SJ.sjC 9 rfl rfl,
   c5_invalid_select_behavior.2 P0.initP0 9 rfl rfl⟩

/-- C6: selecting any valid target id from Idle enters Transitioning(id)
immediately (animating flag up, selection set); as long as the elapsed ticks
sum to less than the configured 2 seconds the controller stays in
Transitioning(id) with exactly the one fly-to tween live; as soon as they
reach 2 seconds it is Focused(id): animating flag down, selection still id,
the focused notification carrying the target's name and description emitted,
and the back control made visible (`Rfoc`). -/
theorem c6_select_idle_to_focused :
    ∀ (s0 : SJ.SJState) (i : Nat) (p : SJ.Planet),
      s0.isAnimating = false → s0.planets[i]? = some p → s0.activeTweens = [] →
      ((SJ.focusPlanet s0 i).isAnimating = true ∧
       (SJ.focusPlanet s0 i).selectedPlanet = some i) ∧
      ∀ dts : List ℚ, (∀ d ∈ dts, 0 ≤ d) →
        (dts.sum < 2 →
          (SJ.applyDts (SJ.focusPlanet s0 i) dts).isAnimating = true ∧
          (SJ.applyDts (SJ.focusPlanet s0 i) dts).selectedPlanet = some i ∧
          (SJ.applyDts (SJ.focusPlanet s0 i) dts).activeTweens.map Tween3.action
            = [CompleteAction.focusDone i]) ∧
        (2 ≤ dts.sum →
          SJ.Rfoc s0 i p (SJ.applyDts (SJ.focusPlanet s0 i) dts)) := by
  intro s0 i p h0 hp ht
  have hq0 := SJ.qmid_start s0 i p h0 hp ht
  refine ⟨⟨hq0.1, hq0.2.1⟩, fun dts hnn => ?_⟩
  have h := SJ.qmid_run s0 i p hp dts 0 (SJ.focusPlanet s0 i) hnn (by norm_num) hq0
  constructor
  · intro hs
    have hq := h.1 (by simpa using hs)
    exact ⟨hq.1, hq.2.1, by rw [hq.2.2.2.2.2.2]; rfl⟩
  · intro hs
    exact h.2 (by simpa using hs)

/-- C6 witness: selecting planet 3 (Earth) from the concrete initial state and
ticking 1 s twice lands in Focused(3) with the Earth notification and the
back control visible. -/
theorem c6_select_idle_to_focused_wit :
    (SJ.focusPlanet SJ.sjC 3).selectedPlanet = some 3 ∧
    (SJ.applyDts (SJ.focusPlanet SJ.sjC 3) [1, 1]).isAnimating = false ∧
    (SJ.applyDts (SJ.focusPlanet SJ.sjC 3) [1, 1]).infoName = "Earth" ∧
    (SJ.applyDts (SJ.focusPlanet SJ.sjC 3) [1, 1]).backVisible = true := by
  have h := c6_select_idle_to_focused SJ.sjC 3
    (SJ.mkPlanet trigZ
      ⟨"Earth", 2, 52, 3/1000, false,
       "Our Home. The only known life in the universe."⟩ 0) rfl rfl rfl
  have h2 := (h.2 [1, 1] (by norm_num)).2 (by norm_num)
  exact ⟨h.1.2, h2.1, h2.2.2.1, h2.2.2.2.2.2.1⟩

/-- C7: the hit test is the first entry of the raycaster result; under the
raycaster's contract that hits come ordered by increasing distance, that entry
is a hit of minimal ray distance, an empty result (a pointer outside every
target's footprint) yields none, and a miss leaves the click handler's state
completely unchanged (pure query, no side effects). -/
theorem c7_hit_test_nearest_or_none :
    ∀ hits : List Hit, List.Sorted (fun a b : Hit => a.dist ≤ b.dist) hits →
      (hits = [] → intersectFirst hits = none) ∧
      (∀ h hs, hits = h :: hs →
        intersectFirst hits = some h.id ∧ ∀ h2 ∈ hits, h.dist ≤ h2.dist) ∧
      (∀ s : SJ.SJState, intersectFirst hits = none → SJ.onClickSJ s hits = s) := by
  intro hits hsorted
  refine ⟨fun he => by rw [he]; rfl, ?_, ?_⟩
  · intro h hs he
    subst he
    refine ⟨rfl, ?_⟩
    intro h2 hmem
    rcases List.mem_cons.1 hmem with h2eq | h2mem
    · rw [h2eq]
    · exact (List.sorted_cons.1 hsorted).1 h2 h2mem
  · intro s hnone
    cases hits with
    | nil =>
      unfold SJ.onClickSJ
      cases ha : s.isAnimating <;> simp [intersectFirst]
    | cons h hs => cases hnone

/-- C7 witness: a concrete ordered two-hit raycast result yields the nearer
target 2, and a concrete empty result leaves the initial state unchanged. -/
theorem c7_hit_test_nearest_or_none_wit :
    intersectFirst [⟨2, 3⟩, ⟨5, 7⟩] = some 2 ∧
    (∀ h2 ∈ [Hit.mk 2 3, Hit.mk 5 7], (3:ℚ) ≤ h2.dist) ∧
    SJ.onClickSJ SJ.sjC [] = SJ.sjC := by
  have hsorted : List.Sorted (fun a b : Hit => a.dist ≤ b.dist) [⟨2, 3⟩, ⟨5, 7⟩] := by
    simp [List.sorted_cons]
    norm_num
  have h := c7_hit_test_nearest_or_none [⟨2, 3⟩, ⟨5, 7⟩] hsorted
  have h2 := h.2.1 ⟨2, 3⟩ [⟨5, 7⟩] rfl
  have h3 := (c7_hit_test_nearest_or_none [] (by simp)).2.2 SJ.sjC rfl
  exact ⟨h2.1, h2.2, h3⟩

/-- C10 counterexample: in `script.js`, selecting target 0 (the Sun) from the
concrete initial state does not leave the orbital motion running as when
nothing is selected: a frame after selecting the Sun advances no orbital
angle (all stay 0), whereas a frame from the untouched initial state moves
Mercury's angle to 1/500 ≠ 0.  The freeze comes from `focusPlanet` having set
`autoRotate` to false, not from the selection truthiness. -/
theorem c10_sun_select_freezes_orbits_cex :
    ((SJ.animateTick trigZ (SJ.focusPlanet SJ.sjC 0)).planets.map SJ.Planet.angle
      = List.replicate 9 (0:ℚ)) ∧
    (SJ.sjC.planets.map SJ.Planet.angle = List.replicate 9 (0:ℚ)) ∧
    ((SJ.animateTick trigZ SJ.sjC).planets.map SJ.Planet.angle)[1]?
      = some (1/500) ∧ ((1:ℚ)/500 ≠ 0) := by
  refine ⟨rfl, rfl, ?_, by norm_num⟩
  show some ((0:ℚ) + 1/250 * (1/2)) = some (1/500)
  norm_num

/-- C10 (amended): the per-frame guard does test the selection truthily — an
index 0 selection passes it as if nothing were selected — but `focusPlanet`
also sets `autoRotate` to false on every accepted select, so every selection,
the Sun included, freezes every planet group's orbital angle and position from
the moment the request is issued; index 0 behaves no differently. -/
theorem c10_every_select_freezes_orbits :
    (jsFalsyNat (some 0) = true) ∧
    (∀ (s : SJ.SJState) (i : Nat), s.isAnimating = false →
        (SJ.focusPlanet s i).autoRotate = false) ∧
    (∀ (trig : ℚ → ℚ × ℚ) (s : SJ.SJState), s.autoRotate = false →
        (SJ.animateTick trig s).planets.map SJ.Planet.angle
          = s.planets.map SJ.Planet.angle ∧
        (SJ.animateTick trig s).planets.map SJ.Planet.groupPos
          = s.planets.map SJ.Planet.groupPos) := by
  refine ⟨rfl, ?_, ?_⟩
  · intro s i h
    cases hp : s.planets[i]? with
    | none => rw [SJ.focusPlanet_invalid s i h hp]
    | some p => rw [SJ.focusPlanet_idle s i p h hp]
  · intro trig s h
    constructor <;> simp [SJ.animateTick, h]

/-- C10 witness: the amended theorem applied to the concrete initial state,
for the Sun (index 0) and for Jupiter (index 5). -/
theorem c10_every_select_freezes_orbits_wit :
    (SJ.focusPlanet SJ.sjC 0).autoRotate = false ∧
    (SJ.animateTick trigZ (SJ.focusPlanet SJ.sjC 5)).planets.map SJ.Planet.angle
      = (SJ.focusPlanet SJ.sjC 5).planets.map SJ.Planet.angle := by
  refine ⟨c10_every_select_freezes_orbits.2.1 SJ.sjC 0 rfl, ?_⟩
  exact (c10_every_select_freezes_orbits.2.2 trigZ (SJ.focusPlanet SJ.sjC 5)
    (c10_every_select_freezes_orbits.2.1 SJ.sjC 5 rfl)).1

/-- C8 counterexample: in `script.js`, starting from the concrete Focused(1)
state, issuing reset clears the selection immediately — while the home
transition has only just started (animating flag up, reset tween live with
zero elapsed) — contradicting "on completion (not before) the selection is
cleared". -/
theorem c8_sj_selection_cleared_immediately_cex :
    (SJ.advanceSJ (SJ.focusPlanet SJ.sjC 1) 2).isAnimating = false ∧
    (SJ.advanceSJ (SJ.focusPlanet SJ.sjC 1) 2).selectedPlanet = some 1 ∧
    (SJ.resetCamera (SJ.advanceSJ (SJ.focusPlanet SJ.sjC 1) 2)).selectedPlanet
      = none ∧
    (SJ.resetCamera (SJ.advanceSJ (SJ.focusPlanet SJ.sjC 1) 2)).isAnimating
      = true ∧
    (SJ.resetCamera (SJ.advanceSJ (SJ.focusPlanet SJ.sjC 1) 2)).activeTweens
      = [SJ.resetTween (SJ.advanceSJ (SJ.focusPlanet SJ.sjC 1) 2)] := by
  have hdone := SJ.advanceSJ_single_done (SJ.focusPlanet SJ.sjC 1)
    (SJ.focusTween SJ.sjC 1
      (SJ.mkPlanet trigZ
        ⟨"Mercury", 1, 24, 1/250, false,
         "Smallest planet. Sun-scorched and cratered."⟩ 0)) 2 rfl
    (by norm_num [SJ.focusTween])
  rw [hdone]
  exact ⟨rfl, rfl, rfl, rfl, rfl⟩

/-- C8 (amended): reset from Focused(id) starts a transition to the home pose
and, once the configured duration has elapsed, the controller is Idle: camera
at the home position, look-at at the origin, animating flag down, selection
cleared and both focus affordances (info panel, back control) hidden.  The
selection is cleared on completion in the unnamed variant (and not before),
but cleared immediately at request time in `script.js`. -/
theorem c8_reset_restores_home :
    (∀ (s : SJ.SJState) (i : Nat),
      s.isAnimating = false → s.selectedPlanet = some i → s.activeTweens = [] →
      (SJ.resetCamera s).selectedPlanet = none ∧
      ∀ dt : ℚ, 2 ≤ dt →
        (SJ.advanceSJ (SJ.resetCamera s) dt).cameraPos = ⟨40, 60, 140⟩ ∧
        (SJ.advanceSJ (SJ.resetCamera s) dt).controlsTarget = ⟨0, 0, 0⟩ ∧
        (SJ.advanceSJ (SJ.resetCamera s) dt).isAnimating = false ∧
        (SJ.advanceSJ (SJ.resetCamera s) dt).selectedPlanet = none ∧
        (SJ.advanceSJ (SJ.resetCamera s) dt).infoVisible = false ∧
        (SJ.advanceSJ (SJ.resetCamera s) dt).backVisible = false) ∧
    (∀ (t : P0.P0State) (i : Nat),
      t.isAnimating = false → t.selectedPlanet = some i →
      t.activeTweens = [] → t.hoverTweens = [] →
      (P0.resetCameraP0 t).selectedPlanet = some i ∧
      (∀ dt : ℚ, 0 ≤ dt → dt < 3/2 →
        (P0.advanceP0 (P0.resetCameraP0 t) dt).selectedPlanet = some i) ∧
      ∀ dt : ℚ, 3/2 ≤ dt →
        (P0.advanceP0 (P0.resetCameraP0 t) dt).cameraPos = ⟨30, 40, 90⟩ ∧
        (P0.advanceP0 (P0.resetCameraP0 t) dt).controlsTarget = ⟨0, 0, 0⟩ ∧
        (P0.advanceP0 (P0.resetCameraP0 t) dt).isAnimating = false ∧
        (P0.advanceP0 (P0.resetCameraP0 t) dt).selectedPlanet = none ∧
        (P0.advanceP0 (P0.resetCameraP0 t) dt).infoVisible = false ∧
        (P0.advanceP0 (P0.resetCameraP0 t) dt).backVisible = false) := by
  constructor
  · intro s i h0 hsel ht
    rw [SJ.resetCamera_idle s h0]
    refine ⟨rfl, fun dt hdt => ?_⟩
    rw [SJ.advanceSJ_single_done _ (SJ.resetTween s) dt (by simp [ht])
          (by simp [SJ.resetTween]; linarith)]
    simp [SJ.applyComplete, SJ.updateUI, SJ.resetTween]
  · intro t i h0 hsel ht hh
    rw [P0.resetCameraP0_idle t h0]
    refine ⟨hsel, fun dt hdt0 hdtlt => ?_, fun dt hdt => ?_⟩
    · rw [P0.advanceP0_single_run _ (P0.resetTweenP0 t) dt (by simp [ht])
            (by simpa using hh) (by simp [P0.resetTweenP0]; linarith)]
      exact hsel
    · rw [P0.advanceP0_single_done _ (P0.resetTweenP0 t) dt (by simp [ht])
            (by simpa using hh) (by simp [P0.resetTweenP0]; linarith)]
      simp [P0.applyCompleteP0, P0.resetTweenP0]

/-- C8 witness: the amended theorem applied to concrete Focused(1) states of
both variants, completing with a tick of exactly the configured duration. -/
theorem c8_reset_restores_home_wit :
    (SJ.resetCamera { SJ.sjC with selectedPlanet := some 1 }).selectedPlanet
      = none ∧
    (SJ.advanceSJ (SJ.resetCamera { SJ.sjC with selectedPlanet := some 1 }) 2).cameraPos
      = ⟨40, 60, 140⟩ ∧
    (P0.resetCameraP0 { P0.initP0 with selectedPlanet := some 1 }).selectedPlanet
      = some 1 ∧
    (P0.advanceP0 (P0.resetCameraP0 { P0.initP0 with selectedPlanet := some 1 })
        (3/2)).selectedPlanet = none := by
  have hSJ := c8_reset_restores_home.1 { SJ.sjC with selectedPlanet := some 1 } 1
    rfl rfl rfl
  have hP0 := c8_reset_restores_home.2 { P0.initP0 with selectedPlanet := some 1 } 1
    rfl rfl rfl rfl
  exact ⟨hSJ.1, (hSJ.2 2 (by norm_num)).1, hP0.1,
         (hP0.2.2 (3/2) (by norm_num)).2.2.2.1⟩

/-- C9 counterexample: in `script.js`, a pointer-move whose hit (planet 1)
differs from the previously hovered target (none) changes only the cursor and
tooltip: no mesh scale changes and no tween of any kind is started, so no
visual emphasis is grown to 1.15, contradicting the claim for this variant. -/
theorem c9_sj_mousemove_no_emphasis_cex :
    SJ.onMouseMoveSJ SJ.sjC [⟨1, 10⟩] =
      { SJ.sjC with cursorPointer := true, tooltipText := "Mercury",
                    tooltipVisible := true } ∧
    (SJ.onMouseMoveSJ SJ.sjC [⟨1, 10⟩]).planets = SJ.sjC.planets ∧
    (SJ.onMouseMoveSJ SJ.sjC [⟨1, 10⟩]).activeTweens = [] :=
  ⟨rfl, rfl, rfl⟩

/-- C9 (amended): in the unnamed variant, on every pointer-move whose hit
differs from the previously hovered target, the handler starts a 0.2-second
scale tween back to 1.0 on the previous target (when there is one) and a
0.2-second scale tween to 1.15 on the new one, records the new hover, and
touches neither the camera transition state (tween list, animating flag,
camera, selection) nor is it affected by the animating flag; conversely the
fly-to ignores the hover state.  The `script.js` variant's pointer-move
handler has no emphasis mechanism at all (see the counterexample). -/
theorem c9_hover_emphasis_tweens :
    (∀ (s : P0.P0State) (h : Hit) (hs : List Hit) (p : P0.Planet),
      s.planets[h.id]? = some p → s.hoveredPlanet = none →
      P0.onMouseMoveP0 s (h :: hs) =
        { s with cursorPointer := true, tooltipText := p.data.name,
                 tooltipVisible := true, hoveredPlanet := some h.id,
                 hoverTweens := s.hoverTweens ++
                   [⟨h.id, p.meshScale, 23/20, 1/5, 0⟩] }) ∧
    (∀ (s : P0.P0State) (h : Hit) (hs : List Hit) (p q : P0.Planet) (j : Nat),
      s.planets[h.id]? = some p → s.hoveredPlanet = some j → j ≠ h.id →
      s.planets[j]? = some q →
      P0.onMouseMoveP0 s (h :: hs) =
        { s with cursorPointer := true, tooltipText := p.data.name,
                 tooltipVisible := true, hoveredPlanet := some h.id,
                 hoverTweens := s.hoverTweens ++
                   [⟨j, q.meshScale, 1, 1/5, 0⟩,
                    ⟨h.id, p.meshScale, 23/20, 1/5, 0⟩] }) ∧
    (∀ (s : P0.P0State) (hits : List Hit),
      (P0.onMouseMoveP0 s hits).activeTweens = s.activeTweens ∧
      (P0.onMouseMoveP0 s hits).isAnimating = s.isAnimating ∧
      (P0.onMouseMoveP0 s hits).cameraPos = s.cameraPos ∧
      (P0.onMouseMoveP0 s hits).selectedPlanet = s.selectedPlanet) ∧
    (∀ (s : P0.P0State) (hits : List Hit) (b : Bool),
      P0.onMouseMoveP0 { s with isAnimating := b } hits
        = { P0.onMouseMoveP0 s hits with isAnimating := b }) ∧
    (∀ (s : P0.P0State) (i : Nat) (o : Option Nat) (l : List P0.HoverTween),
      P0.flyToPlanet { s with hoveredPlanet := o, hoverTweens := l } i
        = { P0.flyToPlanet s i with hoveredPlanet := o, hoverTweens := l }) :=
  ⟨P0.onMouseMoveP0_new_hover_from_none, P0.onMouseMoveP0_new_hover_from_prev,
   P0.onMouseMoveP0_preserves_transitions, P0.onMouseMoveP0_isAnimating_comm,
   P0.flyToPlanet_hover_comm⟩

/-- C9 witness: the amended theorem applied to a concrete pointer-move that
newly hovers Venus (index 2) in the initial state, and to one arriving while
a fly-to toward planet 3 is in flight (the hover handling still runs). -/
theorem c9_hover_emphasis_tweens_wit :
    P0.onMouseMoveP0 P0.initP0 [⟨2, 4⟩] =
      { P0.initP0 with cursorPointer := true, tooltipText := "Venus",
                       tooltipVisible := true, hoveredPlanet := some 2,
                       hoverTweens := [⟨2, 1, 23/20, 1/5, 0⟩] } ∧
    (P0.onMouseMoveP0 (P0.flyToPlanet P0.initP0 3) [⟨2, 4⟩]).isAnimating
      = (P0.flyToPlanet P0.initP0 3).isAnimating := by
  refine ⟨?_, (c9_hover_emphasis_tweens.2.2.1 (P0.flyToPlanet P0.initP0 3)
    [⟨2, 4⟩]).2.1⟩
  exact c9_hover_emphasis_tweens.1 P0.initP0 ⟨2, 4⟩ []
    ⟨⟨"Venus", 3/2, 26, 1/500, false,
      "The hottest planet with a thick toxic atmosphere. Often called Earth\x27s twin."⟩,
     ⟨26, 0, 0⟩, 1, 0⟩ rfl rfl

end SpaceAnim.Claims
